import Mathlib

/-!
Verification development for the Ai-chat provider-routing backend (src/app.py).

The Python source is shallowly embedded below: pure functions become Lean
functions, the mutable module state (provider health counters, round-robin
cursor) becomes explicit state passing, and the HTTP calls issued by the
/chat handler are modelled by a script, a total function from the index of
the call (in issue order) to the upstream result.  The request handler
`chat` and its retry loop `chatLoop` follow the control flow of app.py
line by line, including the Python exception paths (a raised exception in
the tool branch is caught by the inner `except` and falls through to the
normal return; a raised exception elsewhere in the attempt body is caught
by the outer `except Exception` and counts one generic failure).
-/

/-- A JSON dictionary field that can be missing, null, or a value.
Mirrors the three observable shapes of `message["content"]` etc. in app.py. -/
inductive PyField (α : Type) where
  | absent
  | null
  | val (a : α)
deriving DecidableEq, Repr

/-- The JSON value placed under "reply" by `jsonify`: a string or null. -/
inductive Reply where
  | str (s : String)
  | null
deriving DecidableEq, Repr

/-- An HTTP reply of the /chat route: the "reply" JSON value plus status code. -/
structure HttpReply where
  reply : Reply
  status : Nat
deriving DecidableEq, Repr

/-- Result of `json.loads(tool_call["function"]["arguments"])`:
either it raises (or yields a non-dict), or a string-to-string object. -/
inductive JsonArgs where
  | invalid (raw : String)
  | obj (fields : List (String × String))
deriving DecidableEq, Repr

/-- The "function" member of a tool call in an upstream response. -/
structure ToolFunctionCall where
  name : String
  arguments : JsonArgs
deriving DecidableEq, Repr

/-- A tool call object of an upstream response (`message["tool_calls"][i]`). -/
structure ToolCall where
  id : String
  function : ToolFunctionCall
deriving DecidableEq, Repr

/-- A conversation turn as sent to a provider (an element of `messages`). -/
structure Msg where
  role : String
  content : PyField String
  tool_calls : List ToolCall
  tool_call_id : PyField String
deriving DecidableEq, Repr

/-- The function member of the static tool declaration (app.py `tools`);
the JSON-schema parameters object is kept as its required-field list. -/
structure ToolFunctionSpec where
  name : String
  description : String
  parameters_required : List String
deriving DecidableEq, Repr

/-- One entry of the static `tools` list sent to providers. -/
structure ToolSpec where
  type : String
  function : ToolFunctionSpec
deriving DecidableEq, Repr

/-- A configured provider (an element of app.py's PROVIDERS list). -/
structure Provider where
  name : String
  api_url : String
  api_key : String
  default_model : String
  supports_tools : Bool
  headers_extra : List (String × String)
deriving DecidableEq, Repr

/-- The request body built by `prepare_payload`.  `tools`/`tool_choice`
are `Option` because the code conditionally inserts and pops them. -/
structure Payload where
  model : String
  messages : List Msg
  temperature : ℚ
  max_tokens : Nat
  stream : Bool
  tools : Option (List ToolSpec)
  tool_choice : Option String
deriving DecidableEq, Repr

/-- The message member of a response choice. -/
structure RespMessage where
  content : PyField String
  tool_calls : List ToolCall
deriving DecidableEq, Repr

/-- One element of `result["choices"]`. -/
structure RespChoice where
  message : RespMessage
deriving DecidableEq, Repr

/-- A parsed 200-response body; a missing "choices" key is the empty list. -/
structure RespBody where
  choices : List RespChoice
deriving DecidableEq, Repr

/-- Outcome of one `requests.post` in app.py: HTTP 200 with a JSON body,
a non-200 status, or one of the exception classes the code catches. -/
inductive CallResult where
  | success (body : RespBody)
  | httpError (code : Nat)
  | netTimeout
  | connError
  | otherExc
deriving DecidableEq, Repr

/-- Log entry for one upstream HTTP call issued by the handler. -/
structure CallRecord where
  providerName : String
  api_url : String
  payload : Payload
deriving DecidableEq, Repr

/-- The process environment of one request: the PROVIDERS list, the
scripted upstream results (indexed by call count), and the stream of
`random.randint(1, 9999)` seeds drawn by `generate_image`. -/
structure ChatEnv where
  providers : List Provider
  script : Nat → CallResult
  seedAt : Nat → Nat

-- ────────────────────────────────────────────────
--  Pure string helpers (requests.utils.quote, "x in y", dict.get)
-- ────────────────────────────────────────────────

/-- Uppercase hexadecimal digit for a value below 16. -/
def hexDigitChar (n : Nat) : Char :=
  if n < 10 then Char.ofNat (48 + n) else Char.ofNat (55 + n)

/-- UTF-8 byte sequence of a code point, as plain numbers. -/
def utf8Bytes (n : Nat) : List Nat :=
  if n < 128 then [n]
  else if n < 2048 then [192 + n / 64, 128 + n % 64]
  else if n < 65536 then [224 + n / 4096, 128 + (n / 64) % 64, 128 + n % 64]
  else [240 + n / 262144, 128 + (n / 4096) % 64, 128 + (n / 64) % 64, 128 + n % 64]

/-- `requests.utils.quote` treatment of a single character: ASCII
alphanumerics, `_.-~` and the default-safe `/` pass through, everything
else is percent-encoded per UTF-8 byte with uppercase hex digits. -/
def quoteChar (c : Char) : String :=
  if c.isAlphanum || c == '_' || c == '.' || c == '-' || c == '~' || c == '/' then
    String.singleton c
  else
    String.join ((utf8Bytes c.toNat).map
      (fun b => String.mk ['%', hexDigitChar (b / 16), hexDigitChar (b % 16)]))

/-- `requests.utils.quote` with its default safe set. -/
def percentEncode (s : String) : String :=
  String.join (s.data.map quoteChar)

/-- Whether `pat` occurs as a contiguous run inside the character list. -/
def subOccurs (pat : List Char) : List Char → Bool
  | [] => pat.isEmpty
  | c :: cs => pat.isPrefixOf (c :: cs) || subOccurs pat cs

/-- Python's `pat in s` on strings. -/
def strContainsSub (s pat : String) : Bool :=
  subOccurs pat.data s.data

/-- Drop leading whitespace characters. -/
def dropLeadingWs : List Char → List Char
  | [] => []
  | c :: cs => if c.isWhitespace then dropLeadingWs cs else c :: cs

/-- Python's `s.lower()` on ASCII text. -/
def pyLower (s : String) : String :=
  String.mk (s.data.map Char.toLower)

/-- Python's `s.strip()`: remove whitespace from both ends. -/
def pyStrip (s : String) : String :=
  String.mk (dropLeadingWs (dropLeadingWs s.data).reverse).reverse

/-- Python's `d.get(k, dflt)` on a parsed string-to-string object. -/
def dictGetD (fields : List (String × String)) (k dflt : String) : String :=
  match fields.find? (fun kv => kv.1 == k) with
  | some kv => kv.2
  | none => dflt

/-- Pointwise update of a failure-count map. -/
def setHealth (h : String → Nat) (n : String) (v : Nat) : String → Nat :=
  fun m => if m = n then v else h m

/-- `message.get("content", "")` followed by `jsonify({"reply": ...})`:
a missing key gives the empty string, a null value stays null. -/
def contentGetD (c : PyField String) : Reply :=
  match c with
  | .absent => .str ""
  | .null => .null
  | .val s => .str s

-- ────────────────────────────────────────────────
--  Static data from app.py
-- ────────────────────────────────────────────────

/-- The static tool declaration list (app.py `tools`). -/
def tools : List ToolSpec :=
  [{ type := "function",
     function :=
       { name := "generate_image",
         description := "Generate an image based on a text prompt. Use this when the user asks to create, generate, draw, or make an image.",
         parameters_required := ["prompt"] } }]

/-- The fixed system turn (app.py SYSTEM_MESSAGE). -/
def SYSTEM_MESSAGE : Msg :=
  { role := "system",
    content := .val ("You are Clinton Tech AI, an AI assistant created by Clinton Tech. When users ask you to create, generate, draw, or make an image, use the 'generate_image' tool. After generating an image, include the image URL in your response. You can write HTML, CSS, and JavaScript code – the frontend will show a live preview. Never mention which AI model or provider you are using. If asked who created you, say: 'I was created by Clinton Tech'."),
    tool_calls := [],
    tool_call_id := .absent }

/-- The degraded-mode reply text of `fallback_response()`. -/
def fallback_reply_text : String :=
  "🌟 **Clinton Tech AI – Creative Mode**\n\nI'm currently running with **image generation only** because my AI providers need attention.\n\n✨ **You can still:**\n• **Generate images** – Just ask! (e.g., \"draw a sunset\", \"create a cyberpunk city\")\n• **Get code with live preview** – Ask for HTML, CSS, or JavaScript\n• **Use the chat interface** – I'll respond with creative help\n\n💡 **Try these:**\n• *\"Generate an image of a futuristic robot\"*\n• *\"Write HTML for a login form\"*\n• *\"Create a bouncing ball animation in CSS\"*\n\nFull AI chat will be restored once API keys are configured properly."

/-- `jsonify(fallback_response())`. -/
def fallback_response : HttpReply :=
  { reply := .str fallback_reply_text, status := 200 }

/-- Placeholder provider used only as the `List.getD` default; the cyclic
index is always in range when the provider list is non-empty. -/
def dummyProvider : Provider :=
  { name := "", api_url := "", api_key := "", default_model := "",
    supports_tools := false, headers_extra := [] }

-- ────────────────────────────────────────────────
--  prepare_payload and generate_image
-- ────────────────────────────────────────────────

/-- app.py `prepare_payload`: base payload, optional tool attachment,
then the provider-specific adjustments (Groq token ceiling; Together
strips tools when the default model identifier contains "free"). -/
def prepare_payload (provider : Provider) (messages : List Msg) (include_tools : Bool) : Payload :=
  let payload : Payload :=
    { model := provider.default_model, messages := messages,
      temperature := 7 / 10, max_tokens := 2048, stream := false,
      tools := none, tool_choice := none }
  let payload :=
    if include_tools && provider.supports_tools then
      { payload with tools := some tools, tool_choice := some "auto" }
    else payload
  if provider.name == "Groq" then
    { payload with max_tokens := 1024 }
  else if provider.name == "Together" && strContainsSub (pyLower provider.default_model) "free" then
    { payload with tools := none, tool_choice := none }
  else
    payload

/-- app.py `generate_image`: percent-encode the stripped prompt and build
the Pollinations URL; the seed is the value drawn from `random.randint`. -/
def generate_image (prompt : String) (seed : Nat) : Option String :=
  let encoded := percentEncode (pyStrip prompt)
  some ("https://image.pollinations.ai/prompt/" ++ encoded ++
    "?width=1024&height=1024&nologo=true&enhance=true&seed=" ++ toString seed)

-- ────────────────────────────────────────────────
--  The /chat handler as a state machine
-- ────────────────────────────────────────────────

/-- Mutable state threaded through the retry loop of the /chat handler:
the module-level failure counters and round-robin cursor, the log of
upstream calls issued so far this request, the `attempted_providers`
set (as a list, most recent first), the growing `messages` list, and
the number of `random.randint` draws made so far. -/
structure LoopState where
  health : String → Nat
  cursor : Nat
  calls : List CallRecord
  attempted : List String
  messages : List Msg
  seedIdx : Nat

/-- Final observable result of one /chat request. -/
structure ChatResult where
  outcome : HttpReply
  health : String → Nat
  cursor : Nat
  calls : List CallRecord
  attempted : List String

/-- Log entry for a post to a provider. -/
def mkCall (p : Provider) (payload : Payload) : CallRecord :=
  { providerName := p.name, api_url := p.api_url, payload := payload }

/-- `provider_health[name]["failures"] += w`. -/
def bumpHealth (st : LoopState) (n : String) (w : Nat) : LoopState :=
  { st with health := setHealth st.health n (st.health n + w) }

/-- The assistant turn echoing the tool call (app.py lines 248-252). -/
def assistantEcho (tc : ToolCall) : Msg :=
  { role := "assistant", content := .null, tool_calls := [tc], tool_call_id := .absent }

/-- `json.dumps({"image_url": url})`. -/
def dumpsImageUrl (url : String) : String :=
  "\x7b\"image_url\": \"" ++ url ++ "\"\x7d"

/-- The tool-result turn correlated by the tool-call id (lines 255-259). -/
def toolResultMsg (tc : ToolCall) (image_url : String) : Msg :=
  { role := "tool", content := .val (dumpsImageUrl image_url),
    tool_calls := [], tool_call_id := .val tc.id }

/-- Processing of the finalize (second) 200 response: reading
`final_result["choices"][0]["message"]["content"]` raises on a missing
key or empty list, which the inner `except` turns into the fall-through
normal return of the first message's content; a null content prints as
the Python string "None" inside the f-string. -/
def finalizeReply (st : LoopState) (msg : RespMessage) (image_url : String)
    (fbody : RespBody) : Option HttpReply × LoopState :=
  match fbody.choices with
  | [] => (some { reply := contentGetD msg.content, status := 200 }, st)
  | fch :: _ =>
    match fch.message.content with
    | .absent => (some { reply := contentGetD msg.content, status := 200 }, st)
    | .null =>
      (some { reply := .str ("None\n\n![Generated Image](" ++ image_url ++ ")"),
              status := 200 }, st)
    | .val s =>
      (some { reply := .str (s ++ "\n\n![Generated Image](" ++ image_url ++ ")"),
              status := 200 }, st)

/-- The tool branch (app.py lines 236-279) for a tool call whose name is
"generate_image".  Every failure inside it (unparseable arguments, empty
prompt, falsy image URL, failed or malformed finalize response) ends at
line 282's normal return of the first message's content. -/
def handleToolCall (env : ChatEnv) (p : Provider) (st : LoopState)
    (msg : RespMessage) (tc : ToolCall) : Option HttpReply × LoopState :=
  match tc.function.arguments with
  | .invalid _ => (some { reply := contentGetD msg.content, status := 200 }, st)
  | .obj fields =>
    let prompt := dictGetD fields "prompt" ""
    if prompt == "" then
      (some { reply := contentGetD msg.content, status := 200 }, st)
    else
      let seed := env.seedAt st.seedIdx
      let st := { st with seedIdx := st.seedIdx + 1 }
      match generate_image prompt seed with
      | none => (some { reply := contentGetD msg.content, status := 200 }, st)
      | some image_url =>
        let msgs := st.messages ++ [assistantEcho tc, toolResultMsg tc image_url]
        let st := { st with messages := msgs }
        let final_payload := prepare_payload p msgs false
        let idx := st.calls.length
        let st := { st with calls := st.calls ++ [mkCall p final_payload] }
        match env.script idx with
        | .success fbody => finalizeReply st msg image_url fbody
        | _ => (some { reply := contentGetD msg.content, status := 200 }, st)

/-- The 200 branch of the first call (app.py lines 226-282): reset the
failure count, then either run the tool branch or return the content. -/
def handleSuccess (env : ChatEnv) (p : Provider) (st : LoopState)
    (body : RespBody) : Option HttpReply × LoopState :=
  let st := { st with health := setHealth st.health p.name 0 }
  match body.choices with
  | [] => (none, st)
  | choice :: _ =>
    let msg := choice.message
    match msg.tool_calls with
    | [] => (some { reply := contentGetD msg.content, status := 200 }, st)
    | tc :: _ =>
      if tc.function.name == "generate_image" then
        handleToolCall env p st msg tc
      else
        (some { reply := contentGetD msg.content, status := 200 }, st)

/-- The 400 branch (app.py lines 285-303): one immediate retry of the
same provider with tools disabled.  A 200 retry resets the count and
returns its content (a malformed retry body raises, which the outer
`except Exception` turns into one generic failure on top of the reset
count); any other retry outcome adds one generic failure. -/
def handle400 (env : ChatEnv) (p : Provider) (st : LoopState) :
    Option HttpReply × LoopState :=
  let payload2 := prepare_payload p st.messages false
  let idx := st.calls.length
  let st := { st with calls := st.calls ++ [mkCall p payload2] }
  match env.script idx with
  | .success body =>
    let st0 := { st with health := setHealth st.health p.name 0 }
    match body.choices with
    | [] => (none, bumpHealth st0 p.name 1)
    | ch :: _ =>
      match ch.message.content with
      | .absent => (none, bumpHealth st0 p.name 1)
      | .null => (some { reply := .null, status := 200 }, st0)
      | .val s => (some { reply := .str s, status := 200 }, st0)
  | _ => (none, bumpHealth st p.name 1)

/-- The non-200 status ladder of app.py lines 285-319. -/
def handleHttpError (env : ChatEnv) (p : Provider) (st : LoopState)
    (code : Nat) : Option HttpReply × LoopState :=
  if code == 400 then handle400 env p st
  else if code == 401 || code == 403 then (none, bumpHealth st p.name 5)
  else if code == 429 then (none, bumpHealth st p.name 2)
  else if code == 402 then (none, bumpHealth st p.name 3)
  else (none, bumpHealth st p.name 1)

/-- One attempt body (app.py lines 205-331) for an eligible provider:
issue the first call with tools enabled and dispatch on its outcome.
`some reply` returns from the handler; `none` continues the outer loop. -/
def runAttempt (env : ChatEnv) (p : Provider) (st : LoopState) :
    Option HttpReply × LoopState :=
  let payload := prepare_payload p st.messages true
  let idx := st.calls.length
  let st := { st with calls := st.calls ++ [mkCall p payload] }
  match env.script idx with
  | .success body => handleSuccess env p st body
  | .httpError code => handleHttpError env p st code
  | .netTimeout => (none, bumpHealth st p.name 1)
  | .connError => (none, bumpHealth st p.name 1)
  | .otherExc => (none, bumpHealth st p.name 1)

/-- The retry loop `for attempt in range(min(3, len(PROVIDERS)))` of
app.py lines 191-331.  Each iteration draws the next provider from the
cycle; a provider already attempted or with more than 5 failures is
skipped (consuming the iteration), otherwise the attempt body runs. -/
def chatLoop (env : ChatEnv) : Nat → LoopState → ChatResult
  | 0, st =>
    { outcome := fallback_response, health := st.health, cursor := st.cursor,
      calls := st.calls, attempted := st.attempted }
  | fuel + 1, st =>
    let p := env.providers.getD (st.cursor % env.providers.length) dummyProvider
    let st1 := { st with cursor := st.cursor + 1 }
    if st1.attempted.contains p.name then
      chatLoop env fuel st1
    else if st1.health p.name > 5 then
      chatLoop env fuel st1
    else
      let st2 := { st1 with attempted := p.name :: st1.attempted }
      match runAttempt env p st2 with
      | (some reply, st3) =>
        { outcome := reply, health := st3.health, cursor := st3.cursor,
          calls := st3.calls, attempted := st3.attempted }
      | (none, st3) => chatLoop env fuel st3

/-- The current user turn appended to the history. -/
def userTurn (s : String) : Msg :=
  { role := "user", content := .val s, tool_calls := [], tool_call_id := .absent }

/-- The /chat handler (app.py lines 172-335): fallback when no provider
is configured, the empty-message rejection, then the retry loop over the
initial turn sequence. -/
def chat (env : ChatEnv) (health0 : String → Nat) (cursor0 : Nat)
    (rawMessage : String) (history : List Msg) : ChatResult :=
  if env.providers.isEmpty then
    { outcome := fallback_response, health := health0, cursor := cursor0,
      calls := [], attempted := [] }
  else
    let user_message := pyStrip rawMessage
    if user_message == "" then
      { outcome := { reply := .str "Please type a message.", status := 400 },
        health := health0, cursor := cursor0, calls := [], attempted := [] }
    else
      let messages := SYSTEM_MESSAGE :: (history ++ [userTurn user_message])
      chatLoop env (min 3 env.providers.length)
        { health := health0, cursor := cursor0, calls := [], attempted := [],
          messages := messages, seedIdx := 0 }

/-- One entry of the /health route's provider report. -/
structure HealthReportEntry where
  name : String
  model : String
  health : Bool
deriving DecidableEq, Repr

/-- The /health route (app.py lines 337-350): per provider, name, model
and the derived healthy flag `failures < 3`. -/
def healthRoute (providers : List Provider) (failures : String → Nat) :
    List HealthReportEntry :=
  providers.map (fun p =>
    { name := p.name, model := p.default_model,
      health := decide (failures p.name < 3) })

-- ────────────────────────────────────────────────
--  Concrete fixtures for witnesses and counterexamples
-- ────────────────────────────────────────────────

/-- The Groq provider as configured with its default model. -/
def groqProvider : Provider :=
  { name := "Groq", api_url := "https://api.groq.com/openai/v1/chat/completions",
    api_key := "k1", default_model := "llama3-70b-8192",
    supports_tools := true, headers_extra := [] }

/-- The DeepSeek provider as configured with its default model. -/
def deepseekProvider : Provider :=
  { name := "DeepSeek", api_url := "https://api.deepseek.com/chat/completions",
    api_key := "k2", default_model := "deepseek-chat",
    supports_tools := true, headers_extra := [] }

/-- The Together provider as configured with its default (free) model. -/
def togetherProvider : Provider :=
  { name := "Together", api_url := "https://api.together.xyz/v1/chat/completions",
    api_key := "k3", default_model := "meta-llama/Llama-3.3-70B-Instruct-Turbo-Free",
    supports_tools := true, headers_extra := [] }

/-- All-zero failure counters. -/
def zeroHealth : String → Nat := fun _ => 0

/-- A plain-text 200 body. -/
def textBody (s : String) : RespBody :=
  { choices := [{ message := { content := .val s, tool_calls := [] } }] }

/-- A 200 body whose message carries one tool call and null content. -/
def toolBody (tc : ToolCall) : RespBody :=
  { choices := [{ message := { content := .null, tool_calls := [tc] } }] }

/-- Script drawn from a list; calls beyond the list raise. -/
def scriptOf (l : List CallResult) : Nat → CallResult :=
  fun i => l.getD i .otherExc

/-- Constant seed stream. -/
def seedsConst (n : Nat) : Nat → Nat := fun _ => n

-- ────────────────────────────────────────────────
--  Invariant lemmas about the attempt body and the loop
-- ────────────────────────────────────────────────

lemma finalizeReply_state (st : LoopState) (msg : RespMessage) (u : String)
    (fb : RespBody) : (finalizeReply st msg u fb).2 = st := by
  unfold finalizeReply
  rcases fb with ⟨choices⟩
  cases choices with
  | nil => rfl
  | cons fch rest => cases h : fch.message.content <;> simp [h]

lemma handleToolCall_attempted (env : ChatEnv) (p : Provider) (st : LoopState)
    (msg : RespMessage) (tc : ToolCall) :
    (handleToolCall env p st msg tc).2.attempted = st.attempted := by
  unfold handleToolCall
  cases h : tc.function.arguments with
  | invalid r => rfl
  | obj fields =>
    simp only
    by_cases hp : (dictGetD fields "prompt" "" == "") = true
    · simp [hp]
    · simp only [Bool.not_eq_true] at hp
      simp only [hp, generate_image]
      cases hscr : env.script st.calls.length <;>
        simp [hscr, finalizeReply_state]

lemma handleToolCall_health (env : ChatEnv) (p : Provider) (st : LoopState)
    (msg : RespMessage) (tc : ToolCall) :
    (handleToolCall env p st msg tc).2.health = st.health := by
  unfold handleToolCall
  cases h : tc.function.arguments with
  | invalid r => rfl
  | obj fields =>
    simp only
    by_cases hp : (dictGetD fields "prompt" "" == "") = true
    · simp [hp]
    · simp only [Bool.not_eq_true] at hp
      simp only [hp, generate_image]
      cases hscr : env.script st.calls.length <;>
        simp [hscr, finalizeReply_state]

lemma handleSuccess_attempted (env : ChatEnv) (p : Provider) (st : LoopState)
    (body : RespBody) :
    (handleSuccess env p st body).2.attempted = st.attempted := by
  unfold handleSuccess
  rcases body with ⟨choices⟩
  cases choices with
  | nil => rfl
  | cons choice rest =>
    simp only
    cases h : choice.message.tool_calls with
    | nil => rfl
    | cons tc tcs =>
      by_cases hn : (tc.function.name == "generate_image") = true
      · simp [hn, handleToolCall_attempted]
      · simp only [Bool.not_eq_true] at hn
        simp [hn]

lemma handleSuccess_health_self (env : ChatEnv) (p : Provider) (st : LoopState)
    (body : RespBody) :
    (handleSuccess env p st body).2.health p.name = 0 := by
  unfold handleSuccess
  rcases body with ⟨choices⟩
  cases choices with
  | nil => simp [setHealth]
  | cons choice rest =>
    simp only
    cases h : choice.message.tool_calls with
    | nil => simp [setHealth]
    | cons tc tcs =>
      by_cases hn : (tc.function.name == "generate_image") = true
      · simp [hn, handleToolCall_health, setHealth]
      · simp only [Bool.not_eq_true] at hn
        simp [hn, setHealth]

lemma handle400_attempted (env : ChatEnv) (p : Provider) (st : LoopState) :
    (handle400 env p st).2.attempted = st.attempted := by
  unfold handle400
  simp only
  cases hscr : env.script (st.calls.length) with
  | success body =>
    simp only [hscr]
    rcases body with ⟨choices⟩
    cases choices with
    | nil => simp [bumpHealth]
    | cons ch rest => cases h : ch.message.content <;> simp [h, bumpHealth]
  | httpError code => simp [hscr, bumpHealth]
  | netTimeout => simp [hscr, bumpHealth]
  | connError => simp [hscr, bumpHealth]
  | otherExc => simp [hscr, bumpHealth]

lemma handleHttpError_attempted (env : ChatEnv) (p : Provider) (st : LoopState)
    (code : Nat) :
    (handleHttpError env p st code).2.attempted = st.attempted := by
  unfold handleHttpError
  split
  · exact handle400_attempted env p st
  · split
    · simp [bumpHealth]
    · split
      · simp [bumpHealth]
      · split <;> simp [bumpHealth]

lemma runAttempt_attempted (env : ChatEnv) (p : Provider) (st : LoopState) :
    (runAttempt env p st).2.attempted = st.attempted := by
  unfold runAttempt
  simp only
  cases hscr : env.script st.calls.length with
  | success body => simp [hscr, handleSuccess_attempted]
  | httpError code => simp [hscr, handleHttpError_attempted]
  | netTimeout => simp [hscr, bumpHealth]
  | connError => simp [hscr, bumpHealth]
  | otherExc => simp [hscr, bumpHealth]

lemma chatLoop_attempted_mono (env : ChatEnv) :
    ∀ fuel st, st.attempted ⊆ (chatLoop env fuel st).attempted := by
  intro fuel
  induction fuel with
  | zero => intro st; simp [chatLoop]
  | succ k ih =>
    intro st
    simp only [chatLoop]
    split
    · exact ih { st with cursor := st.cursor + 1 }
    · split
      · exact ih { st with cursor := st.cursor + 1 }
      · split
        · next reply st3 heq =>
          have h3 := congrArg (fun r => r.2.attempted) heq
          simp only at h3
          rw [runAttempt_attempted] at h3
          rw [← h3]
          exact List.subset_cons_self _ _
        · next st3 heq =>
          have h3 := congrArg (fun r => r.2.attempted) heq
          simp only at h3
          rw [runAttempt_attempted] at h3
          refine List.Subset.trans ?_ (ih st3)
          rw [← h3]
          exact List.subset_cons_self _ _

lemma chatLoop_attempted_nodup (env : ChatEnv) :
    ∀ fuel st, st.attempted.Nodup → (chatLoop env fuel st).attempted.Nodup := by
  intro fuel
  induction fuel with
  | zero => intro st h; simpa [chatLoop] using h
  | succ k ih =>
    intro st h
    simp only [chatLoop]
    split
    · exact ih { st with cursor := st.cursor + 1 } h
    · split
      · exact ih { st with cursor := st.cursor + 1 } h
      · next hdup _ =>
        have hmem : ¬ (env.providers.getD (st.cursor % env.providers.length)
            dummyProvider).name ∈ st.attempted := by
          intro hm
          exact hdup (by simpa using (List.elem_iff.mpr hm))
        have hnodup2 : ((env.providers.getD (st.cursor % env.providers.length)
            dummyProvider).name :: st.attempted).Nodup := List.nodup_cons.mpr ⟨hmem, h⟩
        split
        · next reply st3 heq =>
          have h3 := congrArg (fun r => r.2.attempted) heq
          simp only at h3
          rw [runAttempt_attempted] at h3
          simp only
          rw [← h3]
          exact hnodup2
        · next st3 heq =>
          have h3 := congrArg (fun r => r.2.attempted) heq
          simp only at h3
          rw [runAttempt_attempted] at h3
          refine ih st3 ?_
          rw [← h3]
          exact hnodup2

lemma chatLoop_attempted_length (env : ChatEnv) :
    ∀ fuel st, (chatLoop env fuel st).attempted.length ≤ st.attempted.length + fuel := by
  intro fuel
  induction fuel with
  | zero => intro st; simp [chatLoop]
  | succ k ih =>
    intro st
    simp only [chatLoop]
    split
    · refine le_trans (ih { st with cursor := st.cursor + 1 }) ?_
      dsimp only
      omega
    · split
      · refine le_trans (ih { st with cursor := st.cursor + 1 }) ?_
        dsimp only
        omega
      · split
        · next reply st3 heq =>
          have h3 := congrArg (fun r => r.2.attempted) heq
          simp only at h3
          rw [runAttempt_attempted] at h3
          simp only
          rw [← h3]
          simp only [List.length_cons]
          omega
        · next st3 heq =>
          have h3 := congrArg (fun r => r.2.attempted) heq
          simp only at h3
          rw [runAttempt_attempted] at h3
          refine le_trans (ih st3) ?_
          rw [← h3]
          simp only [List.length_cons]
          omega

lemma chat_eq_chatLoop (env : ChatEnv) (h0 : String → Nat) (c0 : Nat)
    (msg : String) (hist : List Msg)
    (hpne : env.providers ≠ []) (hmsg : pyStrip msg ≠ "") :
    chat env h0 c0 msg hist =
      chatLoop env (min 3 env.providers.length)
        { health := h0, cursor := c0, calls := [], attempted := [],
          messages := SYSTEM_MESSAGE :: (hist ++ [userTurn (pyStrip msg)]),
          seedIdx := 0 } := by
  have h1 : env.providers.isEmpty = false := by
    simp [List.isEmpty_eq_false, hpne]
  have h2 : (pyStrip msg == "") = false := beq_eq_false_iff_ne.mpr hmsg
  simp only [chat, h1, h2, Bool.false_eq_true, if_false]

lemma chatLoop_step_return (env : ChatEnv) (fuel : Nat) (st : LoopState)
    (p : Provider) (reply : HttpReply) (st3 : LoopState)
    (hp : env.providers.getD (st.cursor % env.providers.length) dummyProvider = p)
    (hna : st.attempted.contains p.name = false)
    (hh : st.health p.name ≤ 5)
    (hr : runAttempt env p
        { st with cursor := st.cursor + 1, attempted := p.name :: st.attempted } =
      (some reply, st3)) :
    chatLoop env (fuel + 1) st =
      { outcome := reply, health := st3.health, cursor := st3.cursor,
        calls := st3.calls, attempted := st3.attempted } := by
  simp only [chatLoop, hp]
  rw [hna]
  simp only [Bool.false_eq_true, if_false]
  rw [if_neg (not_lt.mpr hh)]
  rw [hr]

lemma runAttempt_malformed_tool (env : ChatEnv) (p : Provider) (st : LoopState)
    (body : RespBody) (msg1 : RespMessage) (rest : List RespChoice)
    (tc : ToolCall) (tcs : List ToolCall)
    (hs : env.script st.calls.length = .success body)
    (hb : body.choices = { message := msg1 } :: rest)
    (htc : msg1.tool_calls = tc :: tcs)
    (hbad : tc.function.name ≠ "generate_image" ∨
      (∀ fields, tc.function.arguments = .obj fields → dictGetD fields "prompt" "" = "")) :
    runAttempt env p st =
      (some { reply := contentGetD msg1.content, status := 200 },
       { st with health := setHealth st.health p.name 0,
                 calls := st.calls ++ [mkCall p (prepare_payload p st.messages true)] }) := by
  simp only [runAttempt, hs]
  simp only [handleSuccess, hb, htc]
  rcases hbad with hname | hprompt
  · rw [if_neg (by simpa using hname)]
  · by_cases hname : (tc.function.name == "generate_image") = true
    · rw [if_pos hname]
      simp only [handleToolCall]
      cases harg : tc.function.arguments with
      | invalid r => simp
      | obj fields =>
        have hp0 := hprompt fields harg
        simp [hp0]
    · rw [if_neg hname]

lemma runAttempt_tool_success (env : ChatEnv) (p : Provider) (st : LoopState)
    (body fbody : RespBody) (msg1 : RespMessage) (rest rest2 : List RespChoice)
    (tc : ToolCall) (tcs tcs2 : List ToolCall)
    (fields : List (String × String)) (prompt url s : String)
    (hs : env.script st.calls.length = .success body)
    (hb : body.choices = { message := msg1 } :: rest)
    (htc : msg1.tool_calls = tc :: tcs)
    (hname : tc.function.name = "generate_image")
    (hargs : tc.function.arguments = .obj fields)
    (hprompt : dictGetD fields "prompt" "" = prompt)
    (hpne : prompt ≠ "")
    (hurl : generate_image prompt (env.seedAt st.seedIdx) = some url)
    (hfin : env.script (st.calls.length + 1) = .success fbody)
    (hfb : fbody.choices =
      { message := { content := .val s, tool_calls := tcs2 } } :: rest2) :
    runAttempt env p st =
      (some { reply := .str (s ++ "\n\n![Generated Image](" ++ url ++ ")"),
              status := 200 },
       { st with health := setHealth st.health p.name 0,
                 calls := st.calls ++
                   [mkCall p (prepare_payload p st.messages true),
                    mkCall p (prepare_payload p
                      (st.messages ++ [assistantEcho tc, toolResultMsg tc url]) false)],
                 messages := st.messages ++ [assistantEcho tc, toolResultMsg tc url],
                 seedIdx := st.seedIdx + 1 }) := by
  simp only [runAttempt, hs]
  simp only [handleSuccess, hb, htc]
  rw [if_pos (by simp [hname])]
  simp only [handleToolCall, hargs, hprompt]
  rw [beq_eq_false_iff_ne.mpr hpne]
  simp only [Bool.false_eq_true, if_false, hurl]
  simp only [List.length_append, List.length_cons, List.length_nil, Nat.zero_add, hfin]
  simp only [finalizeReply, hfb]
  simp [List.append_assoc]

lemma runAttempt_tool_finalize_failure (env : ChatEnv) (p : Provider) (st : LoopState)
    (body : RespBody) (msg1 : RespMessage) (rest : List RespChoice)
    (tc : ToolCall) (tcs : List ToolCall)
    (fields : List (String × String)) (prompt url : String)
    (hs : env.script st.calls.length = .success body)
    (hb : body.choices = { message := msg1 } :: rest)
    (htc : msg1.tool_calls = tc :: tcs)
    (hname : tc.function.name = "generate_image")
    (hargs : tc.function.arguments = .obj fields)
    (hprompt : dictGetD fields "prompt" "" = prompt)
    (hpne : prompt ≠ "")
    (hurl : generate_image prompt (env.seedAt st.seedIdx) = some url)
    (hfail : ∀ fb, env.script (st.calls.length + 1) ≠ .success fb) :
    runAttempt env p st =
      (some { reply := contentGetD msg1.content, status := 200 },
       { st with health := setHealth st.health p.name 0,
                 calls := st.calls ++
                   [mkCall p (prepare_payload p st.messages true),
                    mkCall p (prepare_payload p
                      (st.messages ++ [assistantEcho tc, toolResultMsg tc url]) false)],
                 messages := st.messages ++ [assistantEcho tc, toolResultMsg tc url],
                 seedIdx := st.seedIdx + 1 }) := by
  simp only [runAttempt, hs]
  simp only [handleSuccess, hb, htc]
  rw [if_pos (by simp [hname])]
  simp only [handleToolCall, hargs, hprompt]
  rw [beq_eq_false_iff_ne.mpr hpne]
  simp only [Bool.false_eq_true, if_false, hurl]
  simp only [List.length_append, List.length_cons, List.length_nil, Nat.zero_add]
  cases hscr : env.script (st.calls.length + 1) with
  | success fb => exact absurd hscr (hfail fb)
  | httpError code => simp [List.append_assoc]
  | netTimeout => simp [List.append_assoc]
  | connError => simp [List.append_assoc]
  | otherExc => simp [List.append_assoc]

-- ────────────────────────────────────────────────
--  Claim theorems
-- ────────────────────────────────────────────────

/-- Environment with zero configured providers. -/
def envNoProviders : ChatEnv :=
  { providers := [], script := scriptOf [], seedAt := seedsConst 1 }

/-- Environment with one configured provider whose calls all raise. -/
def envOneProvider : ChatEnv :=
  { providers := [groqProvider], script := scriptOf [], seedAt := seedsConst 1 }

/-- C1 (counterexample): with zero providers configured, a whitespace-only
message returns the fallback payload, not the fixed prompt-for-input
reply, because the no-provider check runs before the empty-message
check; so the claim's "regardless of how many providers are configured
(including zero)" fails at provider count zero. -/
theorem zeroProvidersEmptyMessageFallback :
    (chat envNoProviders zeroHealth 0 "   " []).outcome = fallback_response
  ∧ (chat envNoProviders zeroHealth 0 "   " []).outcome ≠
      { reply := Reply.str "Please type a message.", status := 400 }
  ∧ (chat envNoProviders zeroHealth 0 "   " []).calls = [] :=
  ⟨rfl, by decide, rfl⟩

/-- C1 (amended): a request whose message is empty or whitespace-only
after stripping never issues an upstream call; when at least one provider
is configured it returns the fixed prompt-for-input reply with status
400, while with zero providers configured it returns the fallback
payload instead. -/
theorem emptyMessageNoUpstreamCall (env : ChatEnv) (h0 : String → Nat) (c0 : Nat)
    (msg : String) (hist : List Msg) (hmsg : pyStrip msg = "") :
    (env.providers ≠ [] →
      (chat env h0 c0 msg hist).outcome =
        { reply := Reply.str "Please type a message.", status := 400 })
  ∧ (env.providers = [] → (chat env h0 c0 msg hist).outcome = fallback_response)
  ∧ (chat env h0 c0 msg hist).calls = [] := by
  have h2 : (pyStrip msg == "") = true := by simp [hmsg]
  refine ⟨?_, ?_, ?_⟩
  · intro hne
    have h1 : env.providers.isEmpty = false := by simp [List.isEmpty_eq_false, hne]
    simp [chat, h1, h2]
  · intro he
    have h1 : env.providers.isEmpty = true := by simp [he]
    simp [chat, h1]
  · by_cases h1 : env.providers.isEmpty = true
    · simp [chat, h1]
    · simp only [Bool.not_eq_true] at h1
      simp [chat, h1, h2]

/-- Witness for the amended C1 theorem at a one-provider environment and
the whitespace message " ". -/
theorem emptyMessageNoUpstreamCall_witness :
    (envOneProvider.providers ≠ [] →
      (chat envOneProvider zeroHealth 0 " " []).outcome =
        { reply := Reply.str "Please type a message.", status := 400 })
  ∧ (envOneProvider.providers = [] →
      (chat envOneProvider zeroHealth 0 " " []).outcome = fallback_response)
  ∧ (chat envOneProvider zeroHealth 0 " " []).calls = [] :=
  emptyMessageNoUpstreamCall envOneProvider zeroHealth 0 " " [] (by decide)

/-- C5 (counterexample): the image URL is not a pure function of the
prompt alone — two invocations on the identical prompt with two
different draws of the random seed produce different URLs. -/
theorem imageUrlNotDeterministic :
    generate_image "a red bicycle" 1 ≠ generate_image "a red bicycle" 2 := by
  decide

/-- C5 (amended): the URL is a deterministic function of the stripped
prompt and the drawn random seed: equal stripped prompts with the same
seed give the identical URL, built by percent-encoding the prompt onto
the fixed base endpoint with the fixed width/height/nologo/enhance
parameters plus the random seed parameter. -/
theorem imageUrlDeterministicGivenSeed (p1 p2 : String) (seed : Nat)
    (h : pyStrip p1 = pyStrip p2) :
    generate_image p1 seed = generate_image p2 seed
  ∧ generate_image "a red bicycle" seed =
      some ("https://image.pollinations.ai/prompt/" ++ "a%20red%20bicycle" ++
        "?width=1024&height=1024&nologo=true&enhance=true&seed=" ++ toString seed) := by
  constructor
  · unfold generate_image
    rw [h]
  · unfold generate_image
    rw [show percentEncode (pyStrip "a red bicycle") = "a%20red%20bicycle" by decide]

/-- Witness for the amended C5 theorem: two prompts equal after
stripping, with seed 3. -/
theorem imageUrlDeterministicGivenSeed_witness :
    generate_image " bike" 3 = generate_image "bike " 3
  ∧ generate_image "a red bicycle" 3 =
      some ("https://image.pollinations.ai/prompt/" ++ "a%20red%20bicycle" ++
        "?width=1024&height=1024&nologo=true&enhance=true&seed=" ++ toString 3) :=
  imageUrlDeterministicGivenSeed " bike" "bike " 3 (by decide)

/-- C9: payload construction is deterministic and provider-specific —
for every message list, a provider named "Together" whose default model
identifier contains "free" gets the tools and tool_choice fields
stripped even when tools are requested, Groq's max_tokens is capped at
1024, and every other provider keeps max_tokens 2048. -/
theorem payloadShapingPerProvider (p : Provider) (messages : List Msg) (inc : Bool) :
    (p.name = "Together" → strContainsSub (pyLower p.default_model) "free" = true →
        (prepare_payload p messages inc).tools = none ∧
        (prepare_payload p messages inc).tool_choice = none)
  ∧ (p.name = "Groq" → (prepare_payload p messages inc).max_tokens = 1024)
  ∧ (p.name ≠ "Groq" → (prepare_payload p messages inc).max_tokens = 2048) := by
  refine ⟨?_, ?_, ?_⟩
  · intro hn hf
    cases hb : (inc && p.supports_tools) <;>
      simp [prepare_payload, hn, hf, hb]
  · intro hn
    cases hb : (inc && p.supports_tools) <;>
      simp [prepare_payload, hn, hb]
  · intro hn
    have hg : (p.name == "Groq") = false := beq_eq_false_iff_ne.mpr hn
    cases hb : (inc && p.supports_tools) <;>
      cases ht : (p.name == "Together" && strContainsSub (pyLower p.default_model) "free") <;>
        simp [prepare_payload, hg, hb, ht]

/-- Witness for C9 at the configured Together (free default model),
Groq, and DeepSeek providers with an empty message list and tools
requested. -/
theorem payloadShapingPerProvider_witness :
    ((prepare_payload togetherProvider [] true).tools = none ∧
     (prepare_payload togetherProvider [] true).tool_choice = none)
  ∧ (prepare_payload groqProvider [] true).max_tokens = 1024
  ∧ (prepare_payload deepseekProvider [] true).max_tokens = 2048 :=
  ⟨(payloadShapingPerProvider togetherProvider [] true).1 rfl (by decide),
   (payloadShapingPerProvider groqProvider [] true).2.1 rfl,
   (payloadShapingPerProvider deepseekProvider [] true).2.2 (by decide)⟩

/-- C2: every failed upstream attempt increments the provider's
failure-count by exactly the severity weight of its class: 5 for an
authentication error (401/403), 2 (within the stated 1-2 range) for
rate limiting (429), 3 for quota/billing exhaustion (402), and 1 for a
timeout, connection error, unexpected exception, any other non-200
status, or a bad-request (400) whose tools-disabled retry also fails. -/
theorem failureSeverityWeights (env : ChatEnv) (p : Provider) (st : LoopState) :
    ((env.script st.calls.length = .httpError 401 ∨
      env.script st.calls.length = .httpError 403) →
        (runAttempt env p st).2.health p.name = st.health p.name + 5)
  ∧ (env.script st.calls.length = .httpError 429 →
        (runAttempt env p st).2.health p.name = st.health p.name + 2 ∧
        1 ≤ 2 ∧ 2 ≤ 2)
  ∧ (env.script st.calls.length = .httpError 402 →
        (runAttempt env p st).2.health p.name = st.health p.name + 3)
  ∧ ((env.script st.calls.length = .netTimeout ∨
      env.script st.calls.length = .connError ∨
      env.script st.calls.length = .otherExc) →
        (runAttempt env p st).2.health p.name = st.health p.name + 1)
  ∧ (∀ code, env.script st.calls.length = .httpError code →
        code ≠ 400 → code ≠ 401 → code ≠ 403 → code ≠ 429 → code ≠ 402 →
        (runAttempt env p st).2.health p.name = st.health p.name + 1)
  ∧ (env.script st.calls.length = .httpError 400 →
      (∀ body, env.script (st.calls.length + 1) ≠ .success body) →
        (runAttempt env p st).2.health p.name = st.health p.name + 1) := by
  refine ⟨?_, ?_, ?_, ?_, ?_, ?_⟩
  · rintro (h | h) <;>
      simp [runAttempt, h, handleHttpError, bumpHealth, setHealth]
  · intro h
    refine ⟨?_, by omega, by omega⟩
    simp [runAttempt, h, handleHttpError, bumpHealth, setHealth]
  · intro h
    simp [runAttempt, h, handleHttpError, bumpHealth, setHealth]
  · rintro (h | h | h) <;>
      simp [runAttempt, h, bumpHealth, setHealth]
  · intro code h h400 h401 h403 h429 h402
    simp [runAttempt, h, handleHttpError, bumpHealth, setHealth,
      beq_eq_false_iff_ne.mpr h400, beq_eq_false_iff_ne.mpr h401,
      beq_eq_false_iff_ne.mpr h403, beq_eq_false_iff_ne.mpr h429,
      beq_eq_false_iff_ne.mpr h402]
  · intro h hfail
    simp only [runAttempt, h, handleHttpError]
    rw [if_pos (by simp)]
    simp only [handle400, List.length_append, List.length_cons, List.length_nil,
      Nat.zero_add]
    cases hscr : env.script (st.calls.length + 1) with
    | success fb => exact absurd hscr (hfail fb)
    | httpError code => simp [bumpHealth, setHealth]
    | netTimeout => simp [bumpHealth, setHealth]
    | connError => simp [bumpHealth, setHealth]
    | otherExc => simp [bumpHealth, setHealth]

/-- Loop state with no prior failures, used for witnesses. -/
def stFresh : LoopState :=
  { health := zeroHealth, cursor := 0, calls := [], attempted := [],
    messages := [], seedIdx := 0 }

/-- Loop state where every provider already has 4 failures. -/
def stFour : LoopState :=
  { health := fun _ => 4, cursor := 0, calls := [], attempted := [],
    messages := [], seedIdx := 0 }

/-- Environment whose single scripted call yields the given result. -/
def envOf (r : CallResult) : ChatEnv :=
  { providers := [groqProvider], script := scriptOf [r], seedAt := seedsConst 1 }

/-- Environment scripting a 400 followed by a failing retry. -/
def env400Fail : ChatEnv :=
  { providers := [groqProvider], script := scriptOf [.httpError 400, .httpError 500],
    seedAt := seedsConst 1 }

/-- Witness for C2: each failure class applied to the Groq provider at a
zero-failure state produces exactly its weight. -/
theorem failureSeverityWeights_witness :
    (runAttempt (envOf (.httpError 401)) groqProvider stFresh).2.health "Groq" = 5
  ∧ (runAttempt (envOf (.httpError 429)) groqProvider stFresh).2.health "Groq" = 2
  ∧ (runAttempt (envOf (.httpError 402)) groqProvider stFresh).2.health "Groq" = 3
  ∧ (runAttempt (envOf .netTimeout) groqProvider stFresh).2.health "Groq" = 1
  ∧ (runAttempt (envOf (.httpError 500)) groqProvider stFresh).2.health "Groq" = 1
  ∧ (runAttempt env400Fail groqProvider stFresh).2.health "Groq" = 1 := by
  refine ⟨?_, ?_, ?_, ?_, ?_, ?_⟩
  · have h := (failureSeverityWeights (envOf (.httpError 401)) groqProvider stFresh).1
      (Or.inl rfl)
    simpa [stFresh, zeroHealth, groqProvider] using h
  · have h := ((failureSeverityWeights (envOf (.httpError 429)) groqProvider stFresh).2.1
      rfl).1
    simpa [stFresh, zeroHealth, groqProvider] using h
  · have h := (failureSeverityWeights (envOf (.httpError 402)) groqProvider stFresh).2.2.1
      rfl
    simpa [stFresh, zeroHealth, groqProvider] using h
  · have h := (failureSeverityWeights (envOf .netTimeout) groqProvider stFresh).2.2.2.1
      (Or.inl rfl)
    simpa [stFresh, zeroHealth, groqProvider] using h
  · have h := (failureSeverityWeights (envOf (.httpError 500)) groqProvider stFresh).2.2.2.2.1
      500 rfl (by decide) (by decide) (by decide) (by decide) (by decide)
    simpa [stFresh, zeroHealth, groqProvider] using h
  · have h := (failureSeverityWeights env400Fail groqProvider stFresh).2.2.2.2.2
      rfl (fun body hbody => CallResult.noConfusion hbody)
    simpa [stFresh, zeroHealth, groqProvider] using h

/-- C6: a successful upstream call (HTTP 200, including success of the
tools-disabled bad-request retry with a well-formed body) resets the
provider's failure-count to exactly zero from every prior value, after
which the introspection route reports the provider healthy again. -/
theorem successResetsFailures (env : ChatEnv) (p : Provider) (st : LoopState) :
    (∀ body, env.script st.calls.length = .success body →
        (runAttempt env p st).2.health p.name = 0 ∧
        healthRoute [p] (runAttempt env p st).2.health =
          [{ name := p.name, model := p.default_model, health := true }])
  ∧ (∀ body ch rest, env.script st.calls.length = .httpError 400 →
        env.script (st.calls.length + 1) = .success body →
        body.choices = ch :: rest → ch.message.content ≠ .absent →
        (runAttempt env p st).2.health p.name = 0) := by
  constructor
  · intro body hs
    have h0 : (runAttempt env p st).2.health p.name = 0 := by
      simp only [runAttempt, hs]
      exact handleSuccess_health_self env p _ body
    refine ⟨h0, ?_⟩
    simp [healthRoute, h0]
  · intro body ch rest hs hretry hb hcontent
    simp only [runAttempt, hs, handleHttpError]
    rw [if_pos (by simp)]
    simp only [handle400, List.length_append, List.length_cons, List.length_nil,
      Nat.zero_add, hretry, hb]
    cases hc : ch.message.content with
    | absent => exact absurd hc hcontent
    | null => simp [hc, setHealth]
    | val s => simp [hc, setHealth]

/-- Environment scripting a 400 followed by a successful text retry. -/
def env400Ok : ChatEnv :=
  { providers := [groqProvider],
    script := scriptOf [.httpError 400, .success (textBody "Hello!")],
    seedAt := seedsConst 1 }

/-- Witness for C6: from a prior failure-count of 4, a plain success and
a successful bad-request retry both leave Groq's count at zero, and the
health route reports it healthy. -/
theorem successResetsFailures_witness :
    ((runAttempt (envOf (.success (textBody "Hello!"))) groqProvider stFour).2.health
        "Groq" = 0
     ∧ healthRoute [groqProvider]
         (runAttempt (envOf (.success (textBody "Hello!"))) groqProvider stFour).2.health =
           [{ name := "Groq", model := "llama3-70b-8192", health := true }])
  ∧ (runAttempt env400Ok groqProvider stFour).2.health "Groq" = 0 := by
  constructor
  · have h := (successResetsFailures (envOf (.success (textBody "Hello!")))
      groqProvider stFour).1 (textBody "Hello!") rfl
    simpa [groqProvider] using h
  · exact (successResetsFailures env400Ok groqProvider stFour).2
      (textBody "Hello!") { message := { content := .val "Hello!", tool_calls := [] } } []
      rfl rfl rfl (by decide)

/-- C10: for every provider whose failure-count is between 3 and 5, the
read-only health route reports it unhealthy (count < 3 fails) while the
chat retry loop still attempts it (only count > 5 is skipped). -/
theorem healthWindowDisagreement (env : ChatEnv) (st : LoopState) (fuel : Nat)
    (p : Provider) (hmem : p ∈ env.providers)
    (hp : env.providers.getD (st.cursor % env.providers.length) dummyProvider = p)
    (hna : st.attempted.contains p.name = false)
    (h3 : 3 ≤ st.health p.name) (h5 : st.health p.name ≤ 5) :
    { name := p.name, model := p.default_model, health := false } ∈
      healthRoute env.providers st.health
  ∧ p.name ∈ (chatLoop env (fuel + 1) st).attempted := by
  constructor
  · refine List.mem_map.mpr ⟨p, hmem, ?_⟩
    have hd : decide (st.health p.name < 3) = false := decide_eq_false (by omega)
    simp [hd]
  · simp only [chatLoop, hp]
    rw [hna]
    simp only [Bool.false_eq_true, if_false]
    rw [if_neg (not_lt.mpr h5)]
    split
    · next reply st3 heq =>
      have hh := congrArg (fun r => r.2.attempted) heq
      simp only at hh
      rw [runAttempt_attempted] at hh
      simp only
      rw [← hh]
      exact List.mem_cons_self _ _
    · next st3 heq =>
      have hh := congrArg (fun r => r.2.attempted) heq
      simp only at hh
      rw [runAttempt_attempted] at hh
      refine chatLoop_attempted_mono env fuel st3 ?_
      rw [← hh]
      exact List.mem_cons_self _ _

/-- Witness for C10: Groq with 4 accumulated failures is reported
unhealthy by the health route yet still attempted by the loop. -/
theorem healthWindowDisagreement_witness :
    { name := "Groq", model := "llama3-70b-8192", health := false } ∈
      healthRoute (envOf .netTimeout).providers stFour.health
  ∧ "Groq" ∈ (chatLoop (envOf .netTimeout) (0 + 1) stFour).attempted := by
  have h := healthWindowDisagreement (envOf .netTimeout) stFour 0 groqProvider
    (by decide) rfl rfl (by decide) (by decide)
  simpa [groqProvider] using h

/-- Two-provider environment whose next scripted call would succeed. -/
def envTwoProviders : ChatEnv :=
  { providers := [groqProvider, deepseekProvider],
    script := scriptOf [.success (textBody "Hello!")], seedAt := seedsConst 1 }

/-- Mid-loop state in which the cyclic selector's next pick (index 1,
DeepSeek) has already been attempted this request. -/
def stDupPick : LoopState :=
  { health := zeroHealth, cursor := 1, calls := [], attempted := ["DeepSeek"],
    messages := [], seedIdx := 0 }

/-- C4 (counterexample): at a loop state where the selector returns the
already-attempted provider, with exactly one attempt slot left, a fresh
healthy provider in the registry, and an upstream scripted to succeed,
the loop ends in fallback without issuing any call: the duplicate skip
consumed the remaining attempt slot instead of looping again without
consuming budget as the claim states. -/
theorem duplicateSkipConsumesBudget :
    (chatLoop envTwoProviders 1 stDupPick).outcome = fallback_response
  ∧ (chatLoop envTwoProviders 1 stDupPick).calls = []
  ∧ (chatLoop envTwoProviders 1 stDupPick).attempted = ["DeepSeek"] :=
  ⟨rfl, rfl, rfl⟩

/-- C4 (amended): an iteration that skips an already-attempted provider
consumes exactly one attempt slot, exactly like an iteration that skips
an unhealthy provider; still, the set of providers attempted in one
request stays duplicate-free and its size never exceeds
min(3, provider_count). -/
theorem attemptBudgetAndDistinctness (env : ChatEnv) (h0 : String → Nat) (c0 : Nat)
    (msg : String) (hist : List Msg) (fuel : Nat) (st stu : LoopState)
    (hdup : (env.providers.getD (st.cursor % env.providers.length) dummyProvider).name
        ∈ st.attempted)
    (hfresh : (env.providers.getD (stu.cursor % env.providers.length) dummyProvider).name
        ∉ stu.attempted)
    (hunh : stu.health (env.providers.getD (stu.cursor % env.providers.length)
        dummyProvider).name > 5) :
    chatLoop env (fuel + 1) st = chatLoop env fuel { st with cursor := st.cursor + 1 }
  ∧ chatLoop env (fuel + 1) stu = chatLoop env fuel { stu with cursor := stu.cursor + 1 }
  ∧ (chat env h0 c0 msg hist).attempted.Nodup
  ∧ (chat env h0 c0 msg hist).attempted.length ≤ min 3 env.providers.length := by
  refine ⟨?_, ?_, ?_, ?_⟩
  · simp only [chatLoop]
    rw [if_pos (by simpa using List.elem_iff.mpr hdup)]
  · simp only [chatLoop]
    rw [if_neg (fun hc => hfresh (by simpa using hc))]
    rw [if_pos hunh]
  · by_cases h1 : env.providers.isEmpty = true
    · simp [chat, h1]
    · simp only [Bool.not_eq_true] at h1
      by_cases h2 : (pyStrip msg == "") = true
      · simp [chat, h1, h2]
      · simp only [Bool.not_eq_true] at h2
        simp only [chat, h1, h2, Bool.false_eq_true, if_false]
        exact chatLoop_attempted_nodup env (min 3 env.providers.length) _ List.nodup_nil
  · by_cases h1 : env.providers.isEmpty = true
    · simp [chat, h1]
    · simp only [Bool.not_eq_true] at h1
      by_cases h2 : (pyStrip msg == "") = true
      · simp [chat, h1, h2]
      · simp only [Bool.not_eq_true] at h2
        simp only [chat, h1, h2, Bool.false_eq_true, if_false]
        refine le_trans (chatLoop_attempted_length env (min 3 env.providers.length) _) ?_
        simp

/-- Unhealthy-pick state: the selector's next pick has 6 failures. -/
def stUnhealthyPick : LoopState :=
  { health := fun _ => 6, cursor := 0, calls := [], attempted := [],
    messages := [], seedIdx := 0 }

/-- Witness for the amended C4 theorem at concrete skip states and a
concrete request. -/
theorem attemptBudgetAndDistinctness_witness :
    chatLoop envTwoProviders (0 + 1) stDupPick =
      chatLoop envTwoProviders 0 { stDupPick with cursor := stDupPick.cursor + 1 }
  ∧ chatLoop envTwoProviders (0 + 1) stUnhealthyPick =
      chatLoop envTwoProviders 0 { stUnhealthyPick with cursor := stUnhealthyPick.cursor + 1 }
  ∧ (chat envTwoProviders zeroHealth 0 "hi" []).attempted.Nodup
  ∧ (chat envTwoProviders zeroHealth 0 "hi" []).attempted.length ≤
      min 3 envTwoProviders.providers.length :=
  attemptBudgetAndDistinctness envTwoProviders zeroHealth 0 "hi" [] 0
    stDupPick stUnhealthyPick (by decide) (by decide) (by decide)

/-- C7 (amended): when the first selected provider's 200 response carries
a malformed tool invocation (wrong tool name, unparseable arguments, or
missing/empty prompt), the provider's failure-count is not incremented —
the 200 reset leaves it at zero — but instead of retrying without tools
or moving on to another provider, the handler returns immediately after
that single upstream call with the first response's content field (null
for a typical tool-call message) as the reply. -/
theorem malformedToolReturnsContent (env : ChatEnv) (h0 : String → Nat) (c0 : Nat)
    (msg : String) (hist : List Msg) (p : Provider)
    (body : RespBody) (msg1 : RespMessage) (rest : List RespChoice)
    (tc : ToolCall) (tcs : List ToolCall)
    (hpne : env.providers ≠ [])
    (hp : env.providers.getD (c0 % env.providers.length) dummyProvider = p)
    (hmsg : pyStrip msg ≠ "")
    (hh : h0 p.name ≤ 5)
    (hs : env.script 0 = .success body)
    (hb : body.choices = { message := msg1 } :: rest)
    (htc : msg1.tool_calls = tc :: tcs)
    (hbad : tc.function.name ≠ "generate_image" ∨
      (∀ fields, tc.function.arguments = .obj fields → dictGetD fields "prompt" "" = "")) :
    (chat env h0 c0 msg hist).outcome =
      { reply := contentGetD msg1.content, status := 200 }
  ∧ (chat env h0 c0 msg hist).calls.length = 1
  ∧ (chat env h0 c0 msg hist).health p.name = 0 := by
  obtain ⟨k, hk⟩ : ∃ k, min 3 env.providers.length = k + 1 := by
    have : 0 < env.providers.length := List.length_pos.mpr hpne
    exact ⟨min 3 env.providers.length - 1, by omega⟩
  rw [chat_eq_chatLoop env h0 c0 msg hist hpne hmsg, hk]
  have hr := runAttempt_malformed_tool env p
    { health := h0, cursor := c0 + 1, calls := [],
      attempted := [p.name],
      messages := SYSTEM_MESSAGE :: (hist ++ [userTurn (pyStrip msg)]), seedIdx := 0 }
    body msg1 rest tc tcs hs hb htc hbad
  have hstep := chatLoop_step_return env k
    { health := h0, cursor := c0, calls := [], attempted := [],
      messages := SYSTEM_MESSAGE :: (hist ++ [userTurn (pyStrip msg)]), seedIdx := 0 }
    p _ _ hp rfl hh hr
  rw [hstep]
  refine ⟨rfl, rfl, ?_⟩
  simp [setHealth]

/-- Tool call with an unsupported tool name, for the C7 witness. -/
def tcWrongName : ToolCall :=
  { id := "call_9", function := { name := "other_tool", arguments := .obj [("prompt", "x")] } }

/-- Environment where Groq answers with the wrong-name tool call and
DeepSeek would answer with plain text. -/
def envWrongName : ChatEnv :=
  { providers := [groqProvider, deepseekProvider],
    script := scriptOf [.success (toolBody tcWrongName), .success (textBody "Hello!")],
    seedAt := seedsConst 7 }

/-- Witness for C7: the wrong-name tool call makes the handler reply
null after exactly one call, with Groq's counter at zero, even though a
second provider stood ready. -/
theorem malformedToolReturnsContent_witness :
    (chat envWrongName zeroHealth 0 "draw a cat" []).outcome =
      { reply := contentGetD PyField.null, status := 200 }
  ∧ (chat envWrongName zeroHealth 0 "draw a cat" []).calls.length = 1
  ∧ (chat envWrongName zeroHealth 0 "draw a cat" []).health "Groq" = 0 := by
  have h := malformedToolReturnsContent envWrongName zeroHealth 0 "draw a cat" []
    groqProvider (toolBody tcWrongName)
    { content := .null, tool_calls := [tcWrongName] } [] tcWrongName []
    (by decide) rfl (by decide) (by decide) rfl rfl rfl
    (Or.inl (by decide))
  simpa [groqProvider] using h

/-- A well-formed generate_image tool call for the prompt "a red bicycle". -/
def tcBicycle : ToolCall :=
  { id := "call_1",
    function := { name := "generate_image", arguments := .obj [("prompt", "a red bicycle")] } }

/-- The image URL produced for "a red bicycle" with seed 7. -/
def urlBicycle7 : String :=
  "https://image.pollinations.ai/prompt/a%20red%20bicycle?width=1024&height=1024&nologo=true&enhance=true&seed=7"

/-- Environment where Groq answers with the bicycle tool call, the
finalize call fails with HTTP 500, and DeepSeek stands ready with text. -/
def envFinalizeFail : ChatEnv :=
  { providers := [groqProvider, deepseekProvider],
    script := scriptOf [.success (toolBody tcBicycle), .httpError 500,
      .success (textBody "Hello!")],
    seedAt := seedsConst 7 }

/-- C8 (counterexample): after a successful image-tool execution whose
finalize call fails, the handler replies with the first message's null
content — the generated image URL appears nowhere in the reply — while
recording no provider failure and never continuing to the waiting
second provider: the URL is silently discarded, contradicting both
halves of the claim's disjunction. -/
theorem finalizeFailureDiscardsImage :
    (chat envFinalizeFail zeroHealth 0 "draw a red bicycle" []).outcome =
      { reply := Reply.null, status := 200 }
  ∧ (chat envFinalizeFail zeroHealth 0 "draw a red bicycle" []).calls.map
      (fun c => c.providerName) = ["Groq", "Groq"]
  ∧ (chat envFinalizeFail zeroHealth 0 "draw a red bicycle" []).health "Groq" = 0 :=
  ⟨rfl, rfl, rfl⟩

/-- C8 (amended): when the image tool executed but the second (finalize)
call fails, the handler returns the first response's content field
(null for a tool-call message) as the reply after exactly two calls to
the same provider; it records no provider failure, does not continue
the retry loop, and the generated image URL is dropped. -/
theorem finalizeFailureBehaviour (env : ChatEnv) (h0 : String → Nat) (c0 : Nat)
    (msg : String) (hist : List Msg) (p : Provider)
    (body : RespBody) (msg1 : RespMessage) (rest : List RespChoice)
    (tc : ToolCall) (tcs : List ToolCall)
    (fields : List (String × String)) (prompt url : String)
    (hpne : env.providers ≠ [])
    (hp : env.providers.getD (c0 % env.providers.length) dummyProvider = p)
    (hmsg : pyStrip msg ≠ "")
    (hh : h0 p.name ≤ 5)
    (hs : env.script 0 = .success body)
    (hb : body.choices = { message := msg1 } :: rest)
    (htc : msg1.tool_calls = tc :: tcs)
    (hname : tc.function.name = "generate_image")
    (hargs : tc.function.arguments = .obj fields)
    (hprompt : dictGetD fields "prompt" "" = prompt)
    (hprompt_ne : prompt ≠ "")
    (hurl : generate_image prompt (env.seedAt 0) = some url)
    (hfail : ∀ fb, env.script 1 ≠ .success fb) :
    (chat env h0 c0 msg hist).outcome =
      { reply := contentGetD msg1.content, status := 200 }
  ∧ (chat env h0 c0 msg hist).calls.map (fun c => c.providerName) = [p.name, p.name]
  ∧ (chat env h0 c0 msg hist).health p.name = 0 := by
  obtain ⟨k, hk⟩ : ∃ k, min 3 env.providers.length = k + 1 := by
    have : 0 < env.providers.length := List.length_pos.mpr hpne
    exact ⟨min 3 env.providers.length - 1, by omega⟩
  rw [chat_eq_chatLoop env h0 c0 msg hist hpne hmsg, hk]
  have hr := runAttempt_tool_finalize_failure env p
    { health := h0, cursor := c0 + 1, calls := [],
      attempted := [p.name],
      messages := SYSTEM_MESSAGE :: (hist ++ [userTurn (pyStrip msg)]), seedIdx := 0 }
    body msg1 rest tc tcs fields prompt url hs hb htc hname hargs hprompt
    hprompt_ne hurl hfail
  have hstep := chatLoop_step_return env k
    { health := h0, cursor := c0, calls := [], attempted := [],
      messages := SYSTEM_MESSAGE :: (hist ++ [userTurn (pyStrip msg)]), seedIdx := 0 }
    p _ _ hp rfl hh hr
  rw [hstep]
  refine ⟨rfl, by simp [mkCall], by simp [setHealth]⟩

/-- Witness for the amended C8 theorem at the finalize-failure fixture. -/
theorem finalizeFailureBehaviour_witness :
    (chat envFinalizeFail zeroHealth 0 "draw my red bicycle" []).outcome =
      { reply := contentGetD PyField.null, status := 200 }
  ∧ (chat envFinalizeFail zeroHealth 0 "draw my red bicycle" []).calls.map
      (fun c => c.providerName) = ["Groq", "Groq"]
  ∧ (chat envFinalizeFail zeroHealth 0 "draw my red bicycle" []).health "Groq" = 0 := by
  have h := finalizeFailureBehaviour envFinalizeFail zeroHealth 0 "draw my red bicycle" []
    groqProvider (toolBody tcBicycle)
    { content := .null, tool_calls := [tcBicycle] } [] tcBicycle []
    [("prompt", "a red bicycle")] "a red bicycle" urlBicycle7
    (by decide) rfl (by decide) (by decide) rfl rfl rfl rfl rfl rfl
    (by decide) (by decide) (fun fb hfb => CallResult.noConfusion hfb)
  simpa [groqProvider] using h

/-- C3: when the first selected provider's first response signals a valid
generate_image tool invocation and the finalize round succeeds, the
handler issues exactly two upstream calls, both to that same provider;
the second call's turn sequence extends the first call's by exactly two
turns — the assistant turn echoing the original tool call (with its
identifier) and the tool-result turn correlated by that identifier
carrying the image reference — and the reply carries the finalize text
followed by the image URL. -/
theorem toolCallTwoRoundProtocol (env : ChatEnv) (h0 : String → Nat) (c0 : Nat)
    (msg : String) (hist : List Msg) (p : Provider)
    (body fbody : RespBody) (msg1 : RespMessage) (rest rest2 : List RespChoice)
    (tc : ToolCall) (tcs tcs2 : List ToolCall)
    (fields : List (String × String)) (prompt url s : String)
    (msgs0 : List Msg)
    (hpne : env.providers ≠ [])
    (hp : env.providers.getD (c0 % env.providers.length) dummyProvider = p)
    (hmsg : pyStrip msg ≠ "")
    (hh : h0 p.name ≤ 5)
    (hm0 : msgs0 = SYSTEM_MESSAGE :: (hist ++ [userTurn (pyStrip msg)]))
    (hs : env.script 0 = .success body)
    (hb : body.choices = { message := msg1 } :: rest)
    (htc : msg1.tool_calls = tc :: tcs)
    (hname : tc.function.name = "generate_image")
    (hargs : tc.function.arguments = .obj fields)
    (hprompt : dictGetD fields "prompt" "" = prompt)
    (hprompt_ne : prompt ≠ "")
    (hurl : generate_image prompt (env.seedAt 0) = some url)
    (hfin : env.script 1 = .success fbody)
    (hfb : fbody.choices =
      { message := { content := .val s, tool_calls := tcs2 } } :: rest2) :
    (chat env h0 c0 msg hist).calls =
      [mkCall p (prepare_payload p msgs0 true),
       mkCall p (prepare_payload p
         (msgs0 ++ [assistantEcho tc, toolResultMsg tc url]) false)]
  ∧ (chat env h0 c0 msg hist).outcome =
      { reply := .str (s ++ "\n\n![Generated Image](" ++ url ++ ")"), status := 200 } := by
  obtain ⟨k, hk⟩ : ∃ k, min 3 env.providers.length = k + 1 := by
    have : 0 < env.providers.length := List.length_pos.mpr hpne
    exact ⟨min 3 env.providers.length - 1, by omega⟩
  rw [chat_eq_chatLoop env h0 c0 msg hist hpne hmsg, hk]
  have hr := runAttempt_tool_success env p
    { health := h0, cursor := c0 + 1, calls := [],
      attempted := [p.name],
      messages := SYSTEM_MESSAGE :: (hist ++ [userTurn (pyStrip msg)]), seedIdx := 0 }
    body fbody msg1 rest rest2 tc tcs tcs2 fields prompt url s
    hs hb htc hname hargs hprompt hprompt_ne hurl hfin hfb
  have hstep := chatLoop_step_return env k
    { health := h0, cursor := c0, calls := [], attempted := [],
      messages := SYSTEM_MESSAGE :: (hist ++ [userTurn (pyStrip msg)]), seedIdx := 0 }
    p _ _ hp rfl hh hr
  rw [hstep]
  subst hm0
  exact ⟨rfl, rfl⟩

/-- Environment where Groq answers with the bicycle tool call and the
finalize round succeeds with descriptive text. -/
def envToolOk : ChatEnv :=
  { providers := [groqProvider, deepseekProvider],
    script := scriptOf [.success (toolBody tcBicycle),
      .success (textBody "Here is your image:")],
    seedAt := seedsConst 7 }

/-- The initial turn sequence of the C3 witness request. -/
def msgsBicycle : List Msg :=
  SYSTEM_MESSAGE :: ([] ++ [userTurn (pyStrip "draw a red bicycle")])

/-- Witness for C3 at the two-round fixture: both calls go to Groq, the
second payload extends the first by the echo and tool-result turns, and
the reply embeds the URL for "a red bicycle" with seed 7. -/
theorem toolCallTwoRoundProtocol_witness :
    (chat envToolOk zeroHealth 0 "draw a red bicycle" []).calls =
      [mkCall groqProvider (prepare_payload groqProvider msgsBicycle true),
       mkCall groqProvider (prepare_payload groqProvider
         (msgsBicycle ++ [assistantEcho tcBicycle, toolResultMsg tcBicycle urlBicycle7]) false)]
  ∧ (chat envToolOk zeroHealth 0 "draw a red bicycle" []).outcome =
      { reply := .str ("Here is your image:" ++ "\n\n![Generated Image](" ++
          urlBicycle7 ++ ")"), status := 200 } :=
  toolCallTwoRoundProtocol envToolOk zeroHealth 0 "draw a red bicycle" []
    groqProvider (toolBody tcBicycle) (textBody "Here is your image:")
    { content := .null, tool_calls := [tcBicycle] } [] []
    tcBicycle [] [] [("prompt", "a red bicycle")] "a red bicycle" urlBicycle7
    "Here is your image:" msgsBicycle
    (by decide) rfl (by decide) (by decide) rfl rfl rfl rfl rfl rfl rfl
    (by decide) (by decide) rfl rfl

/-- Tool call whose arguments do not parse as JSON. -/
def tcUnparseable : ToolCall :=
  { id := "call_8",
    function := { name := "generate_image", arguments := .invalid "not json" } }

/-- Environment where Groq answers with the unparseable tool call and
DeepSeek would answer with plain text. -/
def envUnparseable : ChatEnv :=
  { providers := [groqProvider, deepseekProvider],
    script := scriptOf [.success (toolBody tcUnparseable), .success (textBody "Hello!")],
    seedAt := seedsConst 7 }

/-- C7 (counterexample): on a first-round response with an unparseable
tool invocation, the handler issues no tools-disabled retry and never
continues to the waiting second provider — it returns immediately after
the single call with the tool-call message's null content as the reply
(the failure count is indeed not incremented, but neither fall-through
path of the claim is taken). -/
theorem malformedToolNoFailover :
    (chat envUnparseable zeroHealth 0 "draw a cat" []).calls.length = 1
  ∧ (chat envUnparseable zeroHealth 0 "draw a cat" []).attempted = ["Groq"]
  ∧ (chat envUnparseable zeroHealth 0 "draw a cat" []).outcome =
      { reply := Reply.null, status := 200 }
  ∧ (chat envUnparseable zeroHealth 0 "draw a cat" []).health "Groq" = 0 :=
  ⟨rfl, rfl, rfl, rfl⟩
